import Mathlib

set_option maxRecDepth 4000

/-!
Verification of the Online-Palengke backend bootstrap.

The program has two modules:

* `src/config/supabase.ts` — reads `SUPABASE_URL`, `SUPABASE_ANON_KEY` and
  `SUPABASE_SERVICE_ROLE_KEY` from the environment, exits with status 1 when a
  required value is falsy, constructs the standard client (and, when the
  service key is truthy, the admin client), then logs a success line.
* `src/index.ts` — installs a SIGINT handler, then runs `main()`: two banner
  lines, one `supabase.auth.getSession()` call; on a resolved call it logs four
  success lines and arms a 30000 ms heartbeat interval; on a thrown error it
  logs an error block and exits with status 1.

We embed both modules as functions producing a trace of observable events.
The environment of a run (configuration strings, the session-check outcome,
the heartbeat firing times, and when — if ever — SIGINT is delivered) are the
parameters of `run`.
-/

namespace OnlinePalengke

/-- An environment configuration: the three variables read by
`src/config/supabase.ts`.  `none` models an unset variable; `some ""` models a
variable set to the empty string. -/
structure Config where
  supabaseUrl : Option String
  supabaseAnonKey : Option String
  supabaseServiceKey : Option String
deriving DecidableEq, Repr

/-- JavaScript truthiness of a possibly-unset environment string:
`undefined` and the empty string are falsy, every other string is truthy. -/
def truthy : Option String → Bool
  | none => false
  | some s => !s.isEmpty

/-- The spec notion of a configuration value being present and non-empty. -/
def presentNonEmpty (o : Option String) : Prop :=
  ∃ s, o = some s ∧ s ≠ ""

/-- An opaque client handle bound to an endpoint URL and a credential
(`createClient(url, key)` performs no network I/O). -/
structure Client where
  url : String
  key : String
deriving DecidableEq, Repr

/-- `createClient` from `@supabase/supabase-js`, kept opaque: it just binds
the URL and the key into a handle. -/
def createClient (url key : String) : Client := ⟨url, key⟩

/-- Observable events of a run. -/
inductive Event where
  | logOut : String → Event
  | logErr : String → Event
  | constructClient : String → String → Event
  | installSigintHandler : Event
  | sessionCheckStarted : Event
  | sessionCheckResolved : Event
  | armTimer : Nat → Event
  | heartbeat : String → Event
  | exitProcess : Nat → Event
deriving DecidableEq, Repr

/-- The two exported handles of `src/config/supabase.ts`. -/
structure SupabaseClients where
  supabase : Client
  supabaseAdmin : Option Client
deriving DecidableEq, Repr

/-- The diagnostic block and exit emitted by the env guard of
`src/config/supabase.ts` lines 11-17. -/
def missingEnvTrace : List Event :=
  [Event.logErr "❌ Missing Supabase environment variables!",
   Event.logErr "Please check your .env file and ensure you have:",
   Event.logErr "SUPABASE_URL=your_supabase_url",
   Event.logErr "SUPABASE_ANON_KEY=your_anon_key",
   Event.exitProcess 1]

/-- The success line logged at the end of `src/config/supabase.ts`. -/
def successLog : String := "✅ Supabase connected successfully!"

/-- Module-load of `src/config/supabase.ts`: env guard, client construction,
success log.  Returns the emitted trace and the exported clients (`none` when
the guard exited the process). -/
def loadSupabaseModule (c : Config) : List Event × Option SupabaseClients :=
  if !(truthy c.supabaseUrl) || !(truthy c.supabaseAnonKey) then
    (missingEnvTrace, none)
  else
    let url := c.supabaseUrl.getD ""
    let key := c.supabaseAnonKey.getD ""
    let supabase := createClient url key
    let supabaseAdmin : Option Client :=
      if truthy c.supabaseServiceKey then
        some (createClient url (c.supabaseServiceKey.getD ""))
      else none
    (Event.constructClient url key ::
      ((match supabaseAdmin with
        | some a => [Event.constructClient a.url a.key]
        | none => []) ++
       [Event.logOut successLog]),
     some ⟨supabase, supabaseAdmin⟩)

/-- The outcome of the `supabase.auth.getSession()` call: either the promise
resolves with a `{ data: { session }, error }` value (first field the session,
second the returned error field), or it rejects (throws). -/
inductive SessionOutcome where
  | resolves : Option String → Option String → SessionOutcome
  | rejects : String → SessionOutcome
deriving DecidableEq, Repr

/-- The two banner lines at the top of `main()`. -/
def bannerTrace : List Event :=
  [Event.logOut "🚀 Online Palengke Backend Starting...",
   Event.logOut "📍 Connecting Dipolog City residents with local vendors"]

/-- `main()`'s success path: the four log lines then `setInterval(..., 30000)`.
Reached whenever `getSession()` resolves — the returned `error` field is
destructured but never inspected by the source. -/
def probeSuccessTrace : List Event :=
  [Event.sessionCheckResolved,
   Event.logOut "✅ Database connection successful!",
   Event.logOut "🏪 Ready to serve the palengke!",
   Event.logOut "🔧 Supabase client initialized and ready",
   Event.logOut "💡 Next: Design your database schema for vendors, products, and orders",
   Event.armTimer 30000]

/-- `main()`'s catch block: error header, the thrown error, the remediation
hint, `process.exit(1)`. -/
def probeFailureTrace (e : String) : List Event :=
  [Event.sessionCheckResolved,
   Event.logErr "❌ Failed to connect to database:",
   Event.logErr e,
   Event.logErr "\n💡 Make sure your .env file has the correct Supabase credentials",
   Event.exitProcess 1]

/-- The shutdown acknowledgement line of the SIGINT handler. -/
def shutdownLog : String := "\n👋 Shutting down Online Palengke backend..."

/-- What the installed SIGINT handler does when the signal is delivered:
one log line, `process.exit(0)`. -/
def sigintTrace : List Event :=
  [Event.logOut shutdownLog, Event.exitProcess 0]

/-- When, if ever, SIGINT is delivered during a run. -/
inductive InterruptPoint where
  | never
  | duringStarting
  | duringRunning
deriving DecidableEq, Repr

/-- The events after the heartbeat phase: the SIGINT handler runs when the
signal is delivered during `RUNNING`, otherwise the run is still open. -/
def runTail (ip : InterruptPoint) : List Event :=
  match ip with
  | InterruptPoint.duringRunning => sigintTrace
  | _ => []

/-- What happens after `main()` has issued the session check: either SIGINT
cuts the startup short, or the recorded outcome of the call is handled. -/
def mainRest (out : SessionOutcome) (hbTimes : List String)
    (ip : InterruptPoint) : List Event :=
  match ip with
  | InterruptPoint.duringStarting => sigintTrace
  | _ =>
    match out with
    | SessionOutcome.rejects e => probeFailureTrace e
    | SessionOutcome.resolves _ _ =>
        probeSuccessTrace ++ hbTimes.map Event.heartbeat ++ runTail ip

/-- Everything `src/index.ts` does after the import finished: install the
SIGINT handler, run `main()`.  `hbTimes` is the (wall-clock) schedule of
heartbeat firings that occur, `ip` says when SIGINT is delivered.  SIGINT
delivered during `STARTING` ends the process before the session check
resolves; delivered during `RUNNING` it ends the process after the recorded
heartbeats. -/
def postLoadTrace (out : SessionOutcome) (hbTimes : List String)
    (ip : InterruptPoint) : List Event :=
  Event.installSigintHandler :: bannerTrace ++ [Event.sessionCheckStarted] ++
    mainRest out hbTimes ip

/-- A complete run of the process: module load of `src/config/supabase.ts`
(triggered by the import at the top of `src/index.ts`), then — provided the
env guard did not exit — handler installation and `main()`. -/
def run (c : Config) (out : SessionOutcome) (hbTimes : List String)
    (ip : InterruptPoint) : List Event :=
  match loadSupabaseModule c with
  | (tr, none) => tr
  | (tr, some _) => tr ++ postLoadTrace out hbTimes ip

/-- Both required configuration values pass the env guard. -/
def envOk (c : Config) : Bool :=
  truthy c.supabaseUrl && truthy c.supabaseAnonKey

/-- The standard client exported by the config module, when the guard passed. -/
def standardClient (c : Config) : Option Client :=
  (loadSupabaseModule c).2.map (fun cl => cl.supabase)

/-- Construction events are the client-factory part of a trace; everything
else (logs, probe events, timer, heartbeats, exits) is the observable
behavior shared with the probe. -/
def isConstructEvent : Event → Bool
  | Event.constructClient _ _ => true
  | _ => false

/-- A trace with the client-construction events erased. -/
def observableTrace (tr : List Event) : List Event :=
  tr.filter (fun e => !(isConstructEvent e))

/-- In `tr`, every occurrence of `b` has an occurrence of `a` strictly before
it. -/
def precedes (a b : Event) (tr : List Event) : Prop :=
  ∀ l1 l2 : List Event, tr = l1 ++ b :: l2 → a ∈ l1

/-- A configuration passing the guard, with no service key. -/
def cfgOk : Config := ⟨some "https://x.test", some "pub-123", none⟩

/-- A configuration passing the guard, with a service key. -/
def cfgAdmin : Config := ⟨some "https://x.test", some "pub-123", some "svc-456"⟩

/-! ### Helper lemmas -/

/-- Splitting a concatenation at an element that does not occur in the left
part: the left part of the split contains everything the prefix contains. -/
lemma mem_left_of_split {α : Type} (P : List α) :
    ∀ (R l1 l2 : List α) (a b : α),
      P ++ R = l1 ++ b :: l2 → b ∉ P → a ∈ P → a ∈ l1 := by
  induction P with
  | nil =>
    intro R l1 l2 a b _ _ ha
    exact absurd ha (List.not_mem_nil a)
  | cons p P ih =>
    intro R l1 l2 a b heq hb ha
    cases l1 with
    | nil =>
      simp only [List.cons_append, List.nil_append, List.cons.injEq] at heq
      exact absurd (heq.1 ▸ List.mem_cons_self p P) hb
    | cons q l1 =>
      simp only [List.cons_append, List.cons.injEq] at heq
      rcases List.mem_cons.mp ha with rfl | ha
      · exact heq.1 ▸ List.mem_cons_self q l1
      · exact List.mem_cons_of_mem q
          (ih R l1 l2 a b heq.2 (fun h => hb (List.mem_cons_of_mem p h)) ha)

/-- `precedes` holds over `P ++ R` whenever `a` occurs in `P` and `b` does
not. -/
lemma precedes_of_append (P R : List Event) (a b : Event)
    (ha : a ∈ P) (hb : b ∉ P) : precedes a b (P ++ R) := by
  intro l1 l2 heq
  exact mem_left_of_split P R l1 l2 a b heq hb ha

/-- `precedes` holds vacuously when `b` never occurs. -/
lemma precedes_of_not_mem (a b : Event) (tr : List Event)
    (h : b ∉ tr) : precedes a b tr := by
  intro l1 l2 heq
  exact absurd (heq ▸ List.mem_append_right l1 (List.mem_cons_self b l2)) h

/-- `truthy` decides exactly the spec predicate `presentNonEmpty`. -/
lemma truthy_iff_presentNonEmpty (o : Option String) :
    truthy o = true ↔ presentNonEmpty o := by
  cases o with
  | none => simp [truthy, presentNonEmpty]
  | some s =>
    simp only [truthy, Bool.not_eq_true', presentNonEmpty, Option.some.injEq]
    constructor
    · intro h
      refine ⟨s, rfl, fun hs => ?_⟩
      rw [hs] at h
      exact absurd h (by decide)
    · rintro ⟨t, rfl, hne⟩
      cases h : s.isEmpty with
      | false => rfl
      | true => exact absurd ((String.isEmpty_iff s).mp h) hne

/-- When the guard passes, `loadSupabaseModule` computes to the construction
trace and the exported clients. -/
lemma loadSupabaseModule_envOk (c : Config) (h : envOk c = true) :
    loadSupabaseModule c =
      (Event.constructClient (c.supabaseUrl.getD "") (c.supabaseAnonKey.getD "") ::
        ((if truthy c.supabaseServiceKey then
            [Event.constructClient (c.supabaseUrl.getD "") (c.supabaseServiceKey.getD "")]
          else []) ++ [Event.logOut successLog]),
       some ⟨createClient (c.supabaseUrl.getD "") (c.supabaseAnonKey.getD ""),
             if truthy c.supabaseServiceKey then
               some (createClient (c.supabaseUrl.getD "") (c.supabaseServiceKey.getD ""))
             else none⟩) := by
  have h1 : truthy c.supabaseUrl = true := (Bool.and_eq_true ..).mp h |>.1
  have h2 : truthy c.supabaseAnonKey = true := (Bool.and_eq_true ..).mp h |>.2
  unfold loadSupabaseModule
  rw [h1, h2]
  cases hs : truthy c.supabaseServiceKey <;> simp [createClient]

/-- When the guard fails, `loadSupabaseModule` emits the diagnostic block and
no clients. -/
lemma loadSupabaseModule_envFail (c : Config)
    (h : truthy c.supabaseUrl = false ∨ truthy c.supabaseAnonKey = false) :
    loadSupabaseModule c = (missingEnvTrace, none) := by
  unfold loadSupabaseModule
  rcases h with h | h <;> rw [h] <;> simp

/-- The env guard fails exactly when a required value is falsy. -/
lemma envOk_false_iff (c : Config) :
    envOk c = false ↔
      (truthy c.supabaseUrl = false ∨ truthy c.supabaseAnonKey = false) := by
  unfold envOk
  cases truthy c.supabaseUrl <;> cases truthy c.supabaseAnonKey <;> simp

/-- A run whose guard passes is the module-load trace followed by the
post-load trace. -/
lemma run_envOk (c : Config) (h : envOk c = true) (out : SessionOutcome)
    (hbTimes : List String) (ip : InterruptPoint) :
    run c out hbTimes ip = (loadSupabaseModule c).1 ++ postLoadTrace out hbTimes ip := by
  rw [run, loadSupabaseModule_envOk c h]

/-- Events that never occur in the module-load trace, and the only `logOut`
line it can carry. -/
lemma load_trace_events (c : Config) :
    (∀ t, Event.heartbeat t ∉ (loadSupabaseModule c).1) ∧
    (∀ n, Event.armTimer n ∉ (loadSupabaseModule c).1) ∧
    Event.sessionCheckResolved ∉ (loadSupabaseModule c).1 ∧
    Event.sessionCheckStarted ∉ (loadSupabaseModule c).1 ∧
    (∀ m, Event.logOut m ∈ (loadSupabaseModule c).1 → m = successLog) := by
  unfold loadSupabaseModule
  cases hguard : (!(truthy c.supabaseUrl) || !(truthy c.supabaseAnonKey)) <;>
    cases hs : truthy c.supabaseServiceKey <;>
      simp [hguard, hs, missingEnvTrace]

/-- A heartbeat-only segment holds no other kind of event. -/
lemma count_map_heartbeat (a : Event) (ts : List String)
    (h : ∀ t, a ≠ Event.heartbeat t) : (ts.map Event.heartbeat).count a = 0 :=
  List.count_eq_zero.mpr (fun hm => by
    rcases List.mem_map.mp hm with ⟨t, _, ht⟩
    exact h t ht.symm)

/-! ### Claims -/

/-- C3: for every configuration in which the endpoint URL or the public
credential is absent or an empty string, the run is exactly the diagnostic
block naming both required configuration keys followed by termination with
status 1 — no client (standard or elevated) is constructed and no network
call (the session check) is attempted. -/
theorem C3_required_config_gate (c : Config) (out : SessionOutcome)
    (hbTimes : List String) (ip : InterruptPoint)
    (h : truthy c.supabaseUrl = false ∨ truthy c.supabaseAnonKey = false) :
    run c out hbTimes ip = missingEnvTrace ∧
    Event.logErr "SUPABASE_URL=your_supabase_url" ∈ run c out hbTimes ip ∧
    Event.logErr "SUPABASE_ANON_KEY=your_anon_key" ∈ run c out hbTimes ip ∧
    (run c out hbTimes ip).getLast? = some (Event.exitProcess 1) ∧
    (∀ u k, Event.constructClient u k ∉ run c out hbTimes ip) ∧
    Event.sessionCheckStarted ∉ run c out hbTimes ip := by
  have hrun : run c out hbTimes ip = missingEnvTrace := by
    simp [run, loadSupabaseModule_envFail c h]
  refine ⟨hrun, ?_, ?_, ?_, ?_, ?_⟩ <;> rw [hrun] <;> simp [missingEnvTrace]

/-- C3 witness: scenario with endpoint URL present but public credential set
to the empty string. -/
theorem C3_required_config_gate_witness :
    run ⟨some "https://x.test", some "", none⟩ (SessionOutcome.rejects "E")
        [] InterruptPoint.never = missingEnvTrace :=
  (C3_required_config_gate ⟨some "https://x.test", some "", none⟩
    (SessionOutcome.rejects "E") [] InterruptPoint.never
    (Or.inr (by decide))).1

/-- C4: for every configuration that passes the required-config gate, the
exported admin handle is a constructed client iff the privileged credential is
present and non-empty; otherwise it is exactly `none` — not an error and not a
default object. -/
theorem C4_elevated_client_gating (c : Config) (cl : SupabaseClients)
    (h : (loadSupabaseModule c).2 = some cl) :
    ((∃ a, cl.supabaseAdmin = some a) ↔ presentNonEmpty c.supabaseServiceKey) ∧
    (¬ presentNonEmpty c.supabaseServiceKey → cl.supabaseAdmin = none) := by
  cases henv : envOk c with
  | false =>
    rw [loadSupabaseModule_envFail c ((envOk_false_iff c).mp henv)] at h
    exact absurd h (by simp)
  | true =>
    simp only [loadSupabaseModule_envOk c henv, Option.some.injEq] at h
    rw [← truthy_iff_presentNonEmpty]
    cases hs : truthy c.supabaseServiceKey <;>
      simp [← h, hs]

/-- C4 witness: with the service key `"svc-456"` configured, the admin client
exists; `presentNonEmpty` holds of the key. -/
theorem C4_elevated_client_gating_witness :
    (∃ a, (SupabaseClients.mk (createClient "https://x.test" "pub-123")
        (some (createClient "https://x.test" "svc-456"))).supabaseAdmin =
          some a) ↔ presentNonEmpty cfgAdmin.supabaseServiceKey :=
  (C4_elevated_client_gating cfgAdmin
    ⟨createClient "https://x.test" "pub-123",
     some (createClient "https://x.test" "svc-456")⟩ (by decide)).1

/-- C5: whenever the admin client is constructed, it is bound to the same
endpoint URL as the standard client. -/
theorem C5_same_endpoint (c : Config) (cl : SupabaseClients) (a : Client)
    (h : (loadSupabaseModule c).2 = some cl) (ha : cl.supabaseAdmin = some a) :
    a.url = cl.supabase.url := by
  cases henv : envOk c with
  | false =>
    rw [loadSupabaseModule_envFail c ((envOk_false_iff c).mp henv)] at h
    exact absurd h (by simp)
  | true =>
    simp only [loadSupabaseModule_envOk c henv, Option.some.injEq] at h
    rw [← h] at ha ⊢
    cases hs : truthy c.supabaseServiceKey
    · simp [hs] at ha
    · simp only [hs] at ha
      rw [if_pos trivial] at ha
      simp only [Option.some.injEq] at ha
      subst ha
      simp [createClient]

/-- C5 witness: with both credentials configured, both clients are bound to
`"https://x.test"`. -/
theorem C5_same_endpoint_witness :
    (createClient "https://x.test" "svc-456").url =
      ((SupabaseClients.mk (createClient "https://x.test" "pub-123")
        (some (createClient "https://x.test" "svc-456"))).supabase).url :=
  C5_same_endpoint cfgAdmin
    ⟨createClient "https://x.test" "pub-123",
     some (createClient "https://x.test" "svc-456")⟩
    (createClient "https://x.test" "svc-456") (by decide) rfl

/-- C1 counterexample: with a valid configuration and a session check that
RESOLVES carrying the returned error value `"boom"` (no throw), the run arms
the heartbeat timer, never exits with status 1, and never emits the error
block — the probe treats a returned error value as success, contradicting the
claim that it is treated as failure. -/
theorem C1_counterexample :
    Event.armTimer 30000 ∈
        run cfgOk (SessionOutcome.resolves none (some "boom")) []
          InterruptPoint.never ∧
    Event.exitProcess 1 ∉
        run cfgOk (SessionOutcome.resolves none (some "boom")) []
          InterruptPoint.never ∧
    Event.logErr "boom" ∉
        run cfgOk (SessionOutcome.resolves none (some "boom")) []
          InterruptPoint.never := by
  decide

/-- C1 (amended): for every run in which the session-check call completes by
returning an error value (without throwing), the probe treats this as
SUCCESS: the success block is logged, the heartbeat timer is armed, no exit
occurs and no error line is emitted — the returned error field is never
inspected; only a thrown error is failure. -/
theorem C1_returned_error_treated_as_success (c : Config) (s e : Option String)
    (hbTimes : List String) (h : envOk c = true) :
    Event.armTimer 30000 ∈
        run c (SessionOutcome.resolves s e) hbTimes InterruptPoint.never ∧
    Event.logOut "✅ Database connection successful!" ∈
        run c (SessionOutcome.resolves s e) hbTimes InterruptPoint.never ∧
    (∀ n, Event.exitProcess n ∉
        run c (SessionOutcome.resolves s e) hbTimes InterruptPoint.never) ∧
    (∀ m, Event.logErr m ∉
        run c (SessionOutcome.resolves s e) hbTimes InterruptPoint.never) := by
  have hload := loadSupabaseModule_envOk c h
  refine ⟨?_, ?_, ?_, ?_⟩ <;>
    cases hs : truthy c.supabaseServiceKey <;>
      simp [run, hload, hs, postLoadTrace, mainRest, runTail, bannerTrace,
            probeSuccessTrace, successLog, List.mem_map]

/-- C1 amendment witness: the valid configuration `cfgOk` with a returned
error value. -/
theorem C1_returned_error_treated_as_success_witness :
    Event.armTimer 30000 ∈
        run cfgOk (SessionOutcome.resolves none (some "boom")) []
          InterruptPoint.never :=
  (C1_returned_error_treated_as_success cfgOk none (some "boom") []
    (by decide)).1

/-- C2: for every run in which the session-check call rejects (throws) with
error `E` — and SIGINT does not cut the startup short — the run emits the
error header, a line carrying `E`, the remediation hint, ends with exit
status 1, never logs a heartbeat and never arms the timer. -/
theorem C2_rejection_is_fatal (c : Config) (e : String)
    (hbTimes : List String) (ip : InterruptPoint) (h : envOk c = true)
    (hip : ip ≠ InterruptPoint.duringStarting) :
    Event.logErr "❌ Failed to connect to database:" ∈
        run c (SessionOutcome.rejects e) hbTimes ip ∧
    Event.logErr e ∈ run c (SessionOutcome.rejects e) hbTimes ip ∧
    Event.logErr "\n💡 Make sure your .env file has the correct Supabase credentials" ∈
        run c (SessionOutcome.rejects e) hbTimes ip ∧
    (run c (SessionOutcome.rejects e) hbTimes ip).getLast? =
        some (Event.exitProcess 1) ∧
    (∀ t, Event.heartbeat t ∉ run c (SessionOutcome.rejects e) hbTimes ip) ∧
    Event.armTimer 30000 ∉ run c (SessionOutcome.rejects e) hbTimes ip := by
  have hload := loadSupabaseModule_envOk c h
  cases ip with
  | duringStarting => exact absurd rfl hip
  | never =>
    refine ⟨?_, ?_, ?_, ?_, ?_, ?_⟩ <;>
      cases hs : truthy c.supabaseServiceKey <;>
        simp [run, hload, hs, postLoadTrace, mainRest, runTail, bannerTrace,
              probeFailureTrace, successLog, List.getLast?_append_cons]
  | duringRunning =>
    refine ⟨?_, ?_, ?_, ?_, ?_, ?_⟩ <;>
      cases hs : truthy c.supabaseServiceKey <;>
        simp [run, hload, hs, postLoadTrace, mainRest, runTail, bannerTrace,
              probeFailureTrace, successLog, List.getLast?_append_cons]

/-- C2 witness: valid configuration, session check throws `"E"`. -/
theorem C2_rejection_is_fatal_witness :
    Event.logErr "E" ∈
      run cfgOk (SessionOutcome.rejects "E") [] InterruptPoint.never :=
  (C2_rejection_is_fatal cfgOk "E" [] InterruptPoint.never (by decide)
    (by decide)).2.1

/-- The events of a successful probe preceding the timer arming. -/
def successPre (c : Config) : List Event :=
  (loadSupabaseModule c).1 ++
    [Event.installSigintHandler] ++ bannerTrace ++
    [Event.sessionCheckStarted, Event.sessionCheckResolved,
     Event.logOut "✅ Database connection successful!",
     Event.logOut "🏪 Ready to serve the palengke!",
     Event.logOut "🔧 Supabase client initialized and ready",
     Event.logOut "💡 Next: Design your database schema for vendors, products, and orders"]

/-- A successful run splits at the timer arming. -/
lemma run_resolves_split (c : Config) (h : envOk c = true)
    (s e : Option String) (hbTimes : List String) (ip : InterruptPoint)
    (hip : ip ≠ InterruptPoint.duringStarting) :
    run c (SessionOutcome.resolves s e) hbTimes ip =
      successPre c ++
        (Event.armTimer 30000 :: (hbTimes.map Event.heartbeat ++ runTail ip)) := by
  rw [run_envOk c h]
  cases ip with
  | duringStarting => exact absurd rfl hip
  | never =>
    simp [postLoadTrace, mainRest, probeSuccessTrace, successPre, bannerTrace]
  | duringRunning =>
    simp [postLoadTrace, mainRest, probeSuccessTrace, successPre, bannerTrace]

lemma mem_successPre_resolved (c : Config) :
    Event.sessionCheckResolved ∈ successPre c := by
  simp [successPre, bannerTrace]

lemma heartbeat_not_mem_successPre (c : Config) (t : String) :
    Event.heartbeat t ∉ successPre c := by
  simpa [successPre, bannerTrace] using (load_trace_events c).1 t

lemma armTimer_not_mem_successPre (c : Config) (n : Nat) :
    Event.armTimer n ∉ successPre c := by
  simpa [successPre, bannerTrace] using (load_trace_events c).2.1 n

/-- C6: in every run, the heartbeat timer never fires before the session
check has resolved — every heartbeat line is strictly preceded by the
resolution of the session-check call, the timer-arming event is strictly
preceded by it as well, and the timer is armed only when the call completed
by resolving (never on a rejection). -/
theorem C6_probe_before_heartbeat (c : Config) (out : SessionOutcome)
    (hbTimes : List String) (ip : InterruptPoint) :
    (∀ t, precedes Event.sessionCheckResolved (Event.heartbeat t)
        (run c out hbTimes ip)) ∧
    precedes Event.sessionCheckResolved (Event.armTimer 30000)
        (run c out hbTimes ip) ∧
    (Event.armTimer 30000 ∈ run c out hbTimes ip →
      ∃ s e, out = SessionOutcome.resolves s e) := by
  obtain ⟨hhb, hat, hres, hsta, hlog⟩ := load_trace_events c
  cases henv : envOk c with
  | false =>
    have hrun : run c out hbTimes ip = missingEnvTrace := by
      rw [run, loadSupabaseModule_envFail c ((envOk_false_iff c).mp henv)]
    rw [hrun]
    exact ⟨fun t => precedes_of_not_mem _ _ _ (by simp [missingEnvTrace]),
           precedes_of_not_mem _ _ _ (by simp [missingEnvTrace]),
           fun hmem => absurd hmem (by simp [missingEnvTrace])⟩
  | true =>
    have hrun := run_envOk c henv out hbTimes ip
    cases ip with
    | duringStarting =>
      refine ⟨fun t => precedes_of_not_mem _ _ _ ?_,
              precedes_of_not_mem _ _ _ ?_, fun hmem => ?_⟩
      · rw [hrun]
        simpa [postLoadTrace, mainRest, bannerTrace, sigintTrace] using hhb t
      · rw [hrun]
        simpa [postLoadTrace, mainRest, bannerTrace, sigintTrace] using hat 30000
      · rw [hrun] at hmem
        simp [postLoadTrace, mainRest, bannerTrace, sigintTrace] at hmem
        exact absurd hmem (hat 30000)
    | never =>
      cases out with
      | rejects e =>
        refine ⟨fun t => precedes_of_not_mem _ _ _ ?_,
                precedes_of_not_mem _ _ _ ?_, fun hmem => ?_⟩
        · rw [hrun]
          simpa [postLoadTrace, mainRest, bannerTrace, probeFailureTrace]
            using hhb t
        · rw [hrun]
          simpa [postLoadTrace, mainRest, bannerTrace, probeFailureTrace]
            using hat 30000
        · rw [hrun] at hmem
          simp [postLoadTrace, mainRest, bannerTrace, probeFailureTrace] at hmem
          exact absurd hmem (hat 30000)
      | resolves s e =>
        have hsplit := run_resolves_split c henv s e hbTimes
          InterruptPoint.never (by simp)
        refine ⟨fun t => ?_, ?_, fun _ => ⟨s, e, rfl⟩⟩
        · rw [hsplit,
            show successPre c ++
                (Event.armTimer 30000 ::
                  (hbTimes.map Event.heartbeat ++ runTail InterruptPoint.never)) =
              (successPre c ++ [Event.armTimer 30000]) ++
                (hbTimes.map Event.heartbeat ++ runTail InterruptPoint.never)
              from by simp]
          refine precedes_of_append _ _ _ _
            (List.mem_append_left _ (mem_successPre_resolved c)) ?_
          intro hmem
          rcases List.mem_append.mp hmem with hmem | hmem
          · exact heartbeat_not_mem_successPre c t hmem
          · simp at hmem
        · rw [hsplit]
          exact precedes_of_append _ _ _ _ (mem_successPre_resolved c)
            (armTimer_not_mem_successPre c 30000)
    | duringRunning =>
      cases out with
      | rejects e =>
        refine ⟨fun t => precedes_of_not_mem _ _ _ ?_,
                precedes_of_not_mem _ _ _ ?_, fun hmem => ?_⟩
        · rw [hrun]
          simpa [postLoadTrace, mainRest, bannerTrace, probeFailureTrace]
            using hhb t
        · rw [hrun]
          simpa [postLoadTrace, mainRest, bannerTrace, probeFailureTrace]
            using hat 30000
        · rw [hrun] at hmem
          simp [postLoadTrace, mainRest, bannerTrace, probeFailureTrace] at hmem
          exact absurd hmem (hat 30000)
      | resolves s e =>
        have hsplit := run_resolves_split c henv s e hbTimes
          InterruptPoint.duringRunning (by simp)
        refine ⟨fun t => ?_, ?_, fun _ => ⟨s, e, rfl⟩⟩
        · rw [hsplit,
            show successPre c ++
                (Event.armTimer 30000 ::
                  (hbTimes.map Event.heartbeat ++ runTail InterruptPoint.duringRunning)) =
              (successPre c ++ [Event.armTimer 30000]) ++
                (hbTimes.map Event.heartbeat ++ runTail InterruptPoint.duringRunning)
              from by simp]
          refine precedes_of_append _ _ _ _
            (List.mem_append_left _ (mem_successPre_resolved c)) ?_
          intro hmem
          rcases List.mem_append.mp hmem with hmem | hmem
          · exact heartbeat_not_mem_successPre c t hmem
          · simp at hmem
        · rw [hsplit]
          exact precedes_of_append _ _ _ _ (mem_successPre_resolved c)
            (armTimer_not_mem_successPre c 30000)

/-- C6 witness: a concrete successful run with one heartbeat, split at that
heartbeat: the session-check resolution lies in the part before it. -/
theorem C6_probe_before_heartbeat_witness :
    Event.sessionCheckResolved ∈
      (successPre cfgOk ++ [Event.armTimer 30000]) :=
  ((C6_probe_before_heartbeat cfgOk (SessionOutcome.resolves none none)
      ["10:00:00"] InterruptPoint.never).1 "10:00:00")
    (successPre cfgOk ++ [Event.armTimer 30000]) []
    (by rw [run_resolves_split cfgOk (by decide) none none ["10:00:00"]
          InterruptPoint.never (by simp)]
        simp [runTail])

/-- C7: the privileged credential does not influence the standard client or
the startup probe: two configurations identical except for the service key
yield the same standard client and the same observable trace (the trace with
client-construction events erased) for every session outcome, heartbeat
schedule and interrupt point. -/
theorem C7_optional_credential_independence (url key sk1 sk2 : Option String)
    (out : SessionOutcome) (hbTimes : List String) (ip : InterruptPoint) :
    standardClient ⟨url, key, sk1⟩ = standardClient ⟨url, key, sk2⟩ ∧
    observableTrace (run ⟨url, key, sk1⟩ out hbTimes ip) =
      observableTrace (run ⟨url, key, sk2⟩ out hbTimes ip) := by
  cases henv : envOk ⟨url, key, sk1⟩ with
  | false =>
    have hd : truthy url = false ∨ truthy key = false :=
      (envOk_false_iff ⟨url, key, sk1⟩).mp henv
    constructor
    · simp [standardClient, loadSupabaseModule_envFail ⟨url, key, sk1⟩ hd,
            loadSupabaseModule_envFail ⟨url, key, sk2⟩ hd]
    · simp [run, loadSupabaseModule_envFail ⟨url, key, sk1⟩ hd,
            loadSupabaseModule_envFail ⟨url, key, sk2⟩ hd]
  | true =>
    have h2 : envOk ⟨url, key, sk2⟩ = true := henv
    constructor
    · simp [standardClient, loadSupabaseModule_envOk _ henv,
            loadSupabaseModule_envOk _ h2]
    · rw [run_envOk _ henv, run_envOk _ h2]
      cases hs1 : truthy sk1 <;> cases hs2 : truthy sk2 <;>
        simp [loadSupabaseModule_envOk _ henv, loadSupabaseModule_envOk _ h2,
              hs1, hs2, observableTrace, List.filter_append, List.filter_cons,
              isConstructEvent]

/-- The shutdown line is not logged by the config module. -/
lemma shutdown_not_mem_load (c : Config) :
    Event.logOut shutdownLog ∉ (loadSupabaseModule c).1 := fun hm =>
  absurd ((load_trace_events c).2.2.2.2 shutdownLog hm) (by decide)

/-- The shutdown line is not part of a successful probe's startup segment. -/
lemma shutdown_not_mem_successPre (c : Config) :
    Event.logOut shutdownLog ∉ successPre c := by
  intro hmem
  simp only [successPre, List.append_assoc, List.mem_append] at hmem
  rcases hmem with hmem | hmem
  · exact shutdown_not_mem_load c hmem
  · revert hmem
    simp +decide [bannerTrace, shutdownLog]

/-- The config module never exits when the guard passes. -/
lemma exit_not_mem_load (c : Config) (h : envOk c = true) (n : Nat) :
    Event.exitProcess n ∉ (loadSupabaseModule c).1 := by
  rw [loadSupabaseModule_envOk c h]
  cases hs : truthy c.supabaseServiceKey <;> simp [hs]

/-- C8: delivering SIGINT while the process is in RUNNING produces exactly
one shutdown-acknowledgement line, the final event of the run is exit with
status 0, and no non-zero exit ever occurs — regardless of how many
heartbeats have already fired. -/
theorem C8_interrupt_clean_shutdown (c : Config) (s e : Option String)
    (hbTimes : List String) (h : envOk c = true) :
    (run c (SessionOutcome.resolves s e) hbTimes
        InterruptPoint.duringRunning).count (Event.logOut shutdownLog) = 1 ∧
    (run c (SessionOutcome.resolves s e) hbTimes
        InterruptPoint.duringRunning).getLast? = some (Event.exitProcess 0) ∧
    (∀ n, n ≠ 0 → Event.exitProcess n ∉
        run c (SessionOutcome.resolves s e) hbTimes
          InterruptPoint.duringRunning) := by
  have hcnt := count_map_heartbeat (Event.logOut shutdownLog) hbTimes
    (by intro t; simp)
  have hshape : run c (SessionOutcome.resolves s e) hbTimes
      InterruptPoint.duringRunning =
      ((successPre c ++ [Event.armTimer 30000]) ++
        hbTimes.map Event.heartbeat) ++ sigintTrace := by
    rw [run_resolves_split c h s e hbTimes InterruptPoint.duringRunning
      (by simp)]
    simp [runTail]
  refine ⟨?_, ?_, ?_⟩
  · rw [hshape, List.count_append, List.count_append, List.count_append,
        List.count_eq_zero.mpr (shutdown_not_mem_successPre c), hcnt]
    simp +decide [sigintTrace]
  · rw [hshape, List.getLast?_append_of_ne_nil _ (by simp [sigintTrace])]
    simp [sigintTrace]
  · intro n hn
    have hL := exit_not_mem_load c h n
    rw [hshape]
    simp only [successPre, List.append_assoc, List.mem_append, List.mem_cons,
      List.mem_map, List.mem_singleton, not_or] at hL ⊢
    simp +decide [bannerTrace, sigintTrace, hn, hL]

/-- C8 witness: concrete run with one heartbeat fired before the interrupt. -/
theorem C8_interrupt_clean_shutdown_witness :
    (run cfgOk (SessionOutcome.resolves none none) ["07:30:00"]
        InterruptPoint.duringRunning).count (Event.logOut shutdownLog) = 1 :=
  (C8_interrupt_clean_shutdown cfgOk none none ["07:30:00"] (by decide)).1

/-- C9: the SIGINT handler is installed at module load, before `main` runs —
its installation strictly precedes the first banner line and the session
check in every run — so delivering SIGINT during STARTING, before the session
check has resolved, still produces exactly one shutdown line and exit status
0, the session check never resolving in that run. -/
theorem C9_handler_installed_before_main (c : Config) (out : SessionOutcome)
    (hbTimes : List String) (ip : InterruptPoint) (h : envOk c = true) :
    precedes Event.installSigintHandler
        (Event.logOut "🚀 Online Palengke Backend Starting...")
        (run c out hbTimes ip) ∧
    precedes Event.installSigintHandler Event.sessionCheckStarted
        (run c out hbTimes ip) ∧
    (run c out hbTimes InterruptPoint.duringStarting).count
        (Event.logOut shutdownLog) = 1 ∧
    (run c out hbTimes InterruptPoint.duringStarting).getLast? =
        some (Event.exitProcess 0) ∧
    Event.sessionCheckResolved ∉
        run c out hbTimes InterruptPoint.duringStarting := by
  obtain ⟨hhb, hat, hres, hsta, hlog⟩ := load_trace_events c
  have hsplitA : run c out hbTimes ip =
      ((loadSupabaseModule c).1 ++ [Event.installSigintHandler]) ++
        (bannerTrace ++ [Event.sessionCheckStarted] ++ mainRest out hbTimes ip) := by
    rw [run_envOk c h]
    simp [postLoadTrace]
  have hsplitB : run c out hbTimes ip =
      ((loadSupabaseModule c).1 ++ [Event.installSigintHandler] ++ bannerTrace) ++
        ([Event.sessionCheckStarted] ++ mainRest out hbTimes ip) := by
    rw [run_envOk c h]
    simp [postLoadTrace]
  have hshape : run c out hbTimes InterruptPoint.duringStarting =
      ((loadSupabaseModule c).1 ++
        (Event.installSigintHandler :: bannerTrace ++
          [Event.sessionCheckStarted])) ++ sigintTrace := by
    rw [run_envOk c h]
    simp [postLoadTrace, mainRest]
  refine ⟨?_, ?_, ?_, ?_, ?_⟩
  · rw [hsplitA]
    refine precedes_of_append _ _ _ _ (by simp) ?_
    intro hmem
    rcases List.mem_append.mp hmem with hmem | hmem
    · exact absurd (hlog _ hmem) (by decide)
    · simp at hmem
  · rw [hsplitB]
    refine precedes_of_append _ _ _ _ (by simp) ?_
    intro hmem
    rcases List.mem_append.mp hmem with hmem | hmem
    rcases List.mem_append.mp hmem with hmem | hmem
    · exact hsta hmem
    · simp at hmem
    · revert hmem
      simp [bannerTrace]
  · rw [hshape, List.count_append, List.count_append,
        List.count_eq_zero.mpr (shutdown_not_mem_load c)]
    simp +decide [bannerTrace, sigintTrace]
  · rw [hshape, List.getLast?_append_of_ne_nil _ (by simp [sigintTrace])]
    simp [sigintTrace]
  · rw [hshape]
    simp only [List.mem_append, not_or]
    refine ⟨⟨hres, ?_⟩, ?_⟩ <;> simp [bannerTrace, sigintTrace]

/-- C9 witness: SIGINT delivered during STARTING on a valid configuration
yields exactly one shutdown line. -/
theorem C9_handler_installed_before_main_witness :
    (run cfgOk (SessionOutcome.resolves none none) []
        InterruptPoint.duringStarting).count (Event.logOut shutdownLog) = 1 :=
  (C9_handler_installed_before_main cfgOk (SessionOutcome.resolves none none)
    [] InterruptPoint.duringStarting (by decide)).2.2.1

/-- C10: with both required values present and non-empty, the client-factory
success line is emitted at module load, strictly before the session-check
call starts, for every session outcome — the line reflects configuration
presence only, not connectivity. -/
theorem C10_success_log_at_module_load (c : Config) (out : SessionOutcome)
    (hbTimes : List String) (ip : InterruptPoint) (h : envOk c = true) :
    Event.logOut successLog ∈ (loadSupabaseModule c).1 ∧
    precedes (Event.logOut successLog) Event.sessionCheckStarted
        (run c out hbTimes ip) ∧
    Event.logOut successLog ∈ run c out hbTimes ip := by
  obtain ⟨hhb, hat, hres, hsta, hlog⟩ := load_trace_events c
  have hmem : Event.logOut successLog ∈ (loadSupabaseModule c).1 := by
    rw [loadSupabaseModule_envOk c h]
    cases hs : truthy c.supabaseServiceKey <;> simp [hs]
  have hsplitB : run c out hbTimes ip =
      ((loadSupabaseModule c).1 ++ [Event.installSigintHandler] ++ bannerTrace) ++
        ([Event.sessionCheckStarted] ++ mainRest out hbTimes ip) := by
    rw [run_envOk c h]
    simp [postLoadTrace]
  refine ⟨hmem, ?_, ?_⟩
  · rw [hsplitB]
    refine precedes_of_append _ _ _ _
      (List.mem_append_left _ (List.mem_append_left _ hmem)) ?_
    intro hmem2
    rcases List.mem_append.mp hmem2 with hmem2 | hmem2
    rcases List.mem_append.mp hmem2 with hmem2 | hmem2
    · exact hsta hmem2
    · simp at hmem2
    · revert hmem2
      simp [bannerTrace]
  · rw [run_envOk c h]
    exact List.mem_append_left _ hmem

/-- C10 witness: valid configuration, session check rejecting — the success
line was still logged at module load. -/
theorem C10_success_log_at_module_load_witness :
    Event.logOut successLog ∈ (loadSupabaseModule cfgOk).1 :=
  (C10_success_log_at_module_load cfgOk (SessionOutcome.rejects "down") []
    InterruptPoint.never (by decide)).1

end OnlinePalengke
